import Mathlib

/-!
Verification of the GLM-OCR converter adapter (Obsidian plugin).

Shallow embedding of the three converter variants:
* `local JSON` variant    : src/src/converters/glmocrConverter.ts
* `cloud` variant         : src/unnamed/part_000 (bigmodel.cn layout_parsing API)
* `local multipart` variant : src/unnamed/part_001 (multipart body for PDFs,
  JSON body for images; its response handling is textually identical to the
  local JSON variant)

Modelling conventions:
* An HTTP response is modelled as its status, its raw text, and the result of
  applying `JSON.parse` to that text (`none` when `JSON.parse` throws).
* JavaScript values coming out of `JSON.parse` are modelled by the inductive
  type `Json` (JSON numbers are modelled as integers; every numeric literal
  appearing in the source or the claims is an integer).
* Property access `x.f` in JS yields `undefined` (here `Option.none`) for an
  absent field or a non-object receiver, and throws a TypeError when the
  receiver is `null`; the only unguarded accesses in the source are on the
  top-level parsed value, so the classification functions test for a
  top-level `null` exactly where the source's try/catch would catch that
  TypeError.
* The vault/formatter collaborators (`prepareConversion`,
  `processConversionResult`, `app.vault.*`) are external per the spec; their
  invocations are recorded as effects in a trace, and the functions below
  model `convert` from the point where the adapter's own work starts.
* The outcome of a call is the spec's `OcrOutcome`; each failure constructor
  corresponds to one distinct user-facing notice branch of the source, and
  the failure message is the variable part of that notice (the text after
  the constant prefix of the notice).
-/

namespace GLMOCR

/-- JSON values as produced by a successful `JSON.parse`. -/
inductive Json where
  | null
  | bool (b : Bool)
  | num (n : Int)
  | str (s : String)
  | arr (elems : List Json)
  | obj (fields : List (String × Json))

/-- Property access `v[k]` on a non-null JS value: a lookup for objects,
`undefined` (`none`) otherwise.  Access on `Json.null` is guarded separately
at the sites where the source can actually reach it. -/
def Json.fieldOpt : Json → String → Option Json
  | .obj fs, k => List.lookup k fs
  | _, _ => none

/-- Index access `v[i]` on a JS value as used behind optional chaining:
array element, object property with the decimal key, or one-character string
for string receivers; `undefined` (`none`) otherwise. -/
def Json.indexOpt : Json → Nat → Option Json
  | .arr xs, i => xs[i]?
  | .obj fs, i => List.lookup (Nat.repr i) fs
  | .str s, i => (s.data[i]?).map (fun c => Json.str (String.mk [c]))
  | _, _ => none

/-- JavaScript truthiness of a JSON value. -/
def jsTruthy : Json → Bool
  | .null => false
  | .bool b => b
  | .num n => !(n == 0)
  | .str s => !(s == "")
  | .arr _ => true
  | .obj _ => true

mutual

/-- String conversion of a JSON value as performed by JS template-literal
interpolation (`String(v)`). -/
def jsDisplay : Json → String
  | .null => "null"
  | .bool b => cond b "true" "false"
  | .num n => toString n
  | .str s => s
  | .arr xs => jsDisplayList xs
  | .obj _ => "[object Object]"
termination_by structural j => j

/-- Comma-joined rendering of array elements (`Array.prototype.join`),
where a `null` element renders as the empty string. -/
def jsDisplayList : List Json → String
  | [] => ""
  | [.null] => ""
  | [j] => jsDisplay j
  | .null :: rest => "," ++ jsDisplayList rest
  | j :: rest => jsDisplay j ++ "," ++ jsDisplayList rest
termination_by structural l => l

end

/-- String conversion of a possibly-`undefined` JS value inside a template
literal (`undefined` interpolates as the text "undefined"). -/
def displayOpt : Option Json → String
  | none => "undefined"
  | some j => jsDisplay j

/-- First truthy value among a list of possibly-`undefined` JS values,
rendered as a string; the default string when none is truthy.  Models the
`if (a) m = a; else if (b) m = b;` cascades of the source. -/
def firstTruthy : List (Option Json) → String → String
  | [], dflt => dflt
  | some v :: rest, dflt => if jsTruthy v then jsDisplay v else firstTruthy rest dflt
  | none :: rest, dflt => firstTruthy rest dflt

/-- Models `String.prototype.substring(0, n)`. -/
def jsSubstring (s : String) (n : Nat) : String := String.mk (s.data.take n)

/-- Models `x || dflt` for an optional string setting (JS truthiness:
`undefined` and the empty string both fall back to the default). -/
def settingValue : Option String → String → String
  | some s, dflt => if s == "" then dflt else s
  | none, dflt => dflt

/-- JS truthiness of an optional string (`!apiKey` checks in the source). -/
def truthyOptStr : Option String → Bool
  | some s => !(s == "")
  | none => false

/-- An HTTP response as observed by the converter: the status, the raw body
text, and the result of `JSON.parse(response.text)` (`none` when parsing
throws).  The `parsed` component is by construction the parse of `text`;
the claims quantify over both, which only enlarges the input space. -/
structure HttpResponse where
  status : Nat
  text : String
  parsed : Option Json

/-- Outcome classification kinds of the spec's error taxonomy; each kind is
realised by one distinct notice branch of the source. -/
inductive FailureKind where
  | configError
  | httpError
  | malformedResponse
  | backendError
  | emptyResult
  | transportError
deriving DecidableEq

/-- The adapter's only externally visible result (spec section 3). -/
inductive OcrOutcome where
  | success (markdown : Json) (modelLabel : String)
  | failure (kind : FailureKind) (message : String)

/-- Fallback failure message used by every variant when a non-200 body does
not parse as JSON: the text after the constant notice prefix in
`GLM-OCR conversion failed: HTTP ${status} - ${...substring(0, 100)...}`. -/
def httpFallbackMsg (status : Nat) (text : String) : String :=
  "HTTP " ++ toString status ++ " - " ++
    (if text == "" then "No response details" else jsSubstring text 100)

/-- Message of the notice shown when a 200 body fails to parse (all
variants): `Error parsing GLM-OCR response. Check console for details.` -/
def parseErrMsg : String := "Error parsing GLM-OCR response. Check console for details."

/-- Error message construction of the local variants' non-200 branch
(glmocrConverter.ts lines 90-102): `errorData.error?.message` first, then
`errorData.message`, defaulting to `HTTP ${status}`. -/
def localErrorMsg (status : Nat) (j : Json) : String :=
  firstTruthy
    [(Json.fieldOpt j "error").bind (fun e => Json.fieldOpt e "message"),
     Json.fieldOpt j "message"]
    ("HTTP " ++ toString status)

/-- Non-200 classification of the local variants (glmocrConverter.ts lines
89-117, part_001 lines 151-179).  A body parsing to `null` makes the
unguarded `errorData.error` access throw, landing in the raw-text fallback
branch. -/
def localNon200 (status : Nat) (text : String) : Option Json → OcrOutcome
  | some .null => .failure .httpError (httpFallbackMsg status text)
  | some j => .failure .httpError (localErrorMsg status j)
  | none => .failure .httpError (httpFallbackMsg status text)

/-- The optional chain `responseData.choices?.[0]?.message?.content` of the
local variants (glmocrConverter.ts lines 124-126). -/
def localContentOf (j : Json) : Option Json :=
  (((Json.fieldOpt j "choices").bind (fun c => Json.indexOpt c 0)).bind
      (fun m => Json.fieldOpt m "message")).bind
    (fun m => Json.fieldOpt m "content")

/-- 200-status classification of the local variants (glmocrConverter.ts
lines 119-167): a non-parsing body or a top-level `null` (whose `.choices`
access throws) lands in the parse-error catch; otherwise the extracted
content — or the literal `No text extracted` when that content is falsy —
is handed to the formatter as a success. -/
def local200 : Option Json → OcrOutcome
  | none => .failure .malformedResponse parseErrMsg
  | some .null => .failure .malformedResponse parseErrMsg
  | some j =>
      let ocrText : Json :=
        match localContentOf j with
        | some v => if jsTruthy v then v else .str "No text extracted"
        | none => .str "No text extracted"
      .success ocrText "GLM-OCR (mlx-vlm)"

/-- Response classification of the local variants. -/
def localClassify (r : HttpResponse) : OcrOutcome :=
  if r.status == 200 then local200 r.parsed else localNon200 r.status r.text r.parsed

/-- Non-200 classification of the cloud variant (part_000 lines 77-99):
`errorData.msg || 'HTTP ${status}'` when the body parses (a top-level
`null` throws on the `.msg` access), raw-text fallback otherwise. -/
def cloudNon200 (status : Nat) (text : String) : Option Json → OcrOutcome
  | some .null => .failure .httpError (httpFallbackMsg status text)
  | some j => .failure .httpError (firstTruthy [Json.fieldOpt j "msg"] ("HTTP " ++ toString status))
  | none => .failure .httpError (httpFallbackMsg status text)

/-- The strict comparison `responseData.code !== 0` of part_000 line 106,
negated: true exactly when the `code` field is present and is the
number 0 (strict equality performs no coercion). -/
def isCodeZero (j : Json) : Bool :=
  match Json.fieldOpt j "code" with
  | some (.num n) => n == 0
  | _ => false

/-- 200-status classification of the cloud variant (part_000 lines
101-160): a non-zero `code` is a backend error carrying `msg`; an absent or
falsy `data?.md_result` is the `No text extracted` failure; otherwise the
extracted markdown is a success. -/
def cloud200 : Option Json → OcrOutcome
  | none => .failure .malformedResponse parseErrMsg
  | some .null => .failure .malformedResponse parseErrMsg
  | some j =>
      if isCodeZero j then
        match (Json.fieldOpt j "data").bind (fun d => Json.fieldOpt d "md_result") with
        | some v =>
            if jsTruthy v then .success v "GLM-OCR (cloud)"
            else .failure .emptyResult "No text extracted"
        | none => .failure .emptyResult "No text extracted"
      else .failure .backendError (displayOpt (Json.fieldOpt j "msg"))

/-- Response classification of the cloud variant. -/
def cloudClassify (r : HttpResponse) : OcrOutcome :=
  if r.status == 200 then cloud200 r.parsed else cloudNon200 r.status r.text r.parsed

/-! ### Request construction -/

/-- User settings consumed by the converters (the `MarkerSettings` fields
the adapter reads).  Optional string fields model possibly-unset JS
settings. -/
structure MarkerSettings where
  glmocrEndpoint : Option String
  glmocrApiKey : Option String
  movePDFtoFolder : Bool
  deleteOriginal : Bool

/-- The document handed to `convert`: its vault file name and the raw bytes
returned by `app.vault.readBinary` (bytes of a `Uint8Array`, hence < 256). -/
structure SourceDocument where
  name : String
  bytes : List Nat

/-- Body of an outgoing request.  The JSON variants pass
`JSON.stringify(payload)`; the stringification at the transport boundary is
not modelled, the body carries the payload value itself.  The multipart
variant passes raw bytes. -/
inductive RequestBody where
  | empty
  | jsonPayload (j : Json)
  | bytes (bs : List Nat)

/-- An outgoing HTTP request as assembled into `RequestUrlParam`. -/
structure Request where
  method : String
  url : String
  contentType : Option String
  authorization : Option String
  body : RequestBody

/-- Observable side effects of one `convert` call: the HTTP request(s)
issued and the vault/formatter collaborator invocations. -/
inductive Effect where
  | httpRequest (req : Request)
  | vaultProcess (markdown : Json) (modelLabel : String) (sourceFile : String)
  | vaultRename (newPath : String)
  | vaultDelete

/-- The HTTP requests contained in an effect trace. -/
def requestsOf : List Effect → List Request
  | [] => []
  | .httpRequest r :: rest => r :: requestsOf rest
  | _ :: rest => requestsOf rest

/-- Result of one transport interaction: the resolved response, or the
message of the exception `requestUrl` rejected with (network errors; with
`throw: false` a non-2xx status still resolves). -/
def TransportResult : Type := Except String HttpResponse

/-- Effects of the successful-conversion tail shared by all variants:
hand the result to the formatter, then optionally move and delete the
original file. -/
def successEffects (settings : MarkerSettings) (doc : SourceDocument)
    (folderPath : String) (markdown : Json) (label : String) : List Effect :=
  [Effect.vaultProcess markdown label doc.name] ++
    (if settings.movePDFtoFolder then [Effect.vaultRename (folderPath ++ doc.name)] else []) ++
    (if settings.deleteOriginal then [Effect.vaultDelete] else [])

/-- Message of the outer transport catch: `error.message || 'Network or
server error'`. -/
def transportMsg (e : String) : String :=
  if e == "" then "Network or server error" else e

/-- Outcome and trace produced once a variant has built its single request:
issue it, then classify the response; a transport rejection is caught by
the outer catch. -/
def runRequest (classify : HttpResponse → OcrOutcome) (settings : MarkerSettings)
    (doc : SourceDocument) (folderPath : String) (req : Request)
    (transport : TransportResult) : OcrOutcome × List Effect :=
  match transport with
  | .error e => (.failure .transportError (transportMsg e), [Effect.httpRequest req])
  | .ok r =>
      match classify r with
      | .success md label =>
          (.success md label,
            Effect.httpRequest req :: successEffects settings doc folderPath md label)
      | .failure k m => (.failure k m, [Effect.httpRequest req])

/-! ### MIME types and base64 -/

/-- Models `filename.toLowerCase().split('.').pop()`. -/
def extOf (filename : String) : String :=
  ((filename.toLower).splitOn ".").getLastD ""

/-- The `getMimeType` table (identical in all three variants). -/
def getMimeType (filename : String) : String :=
  (List.lookup (extOf filename)
    [("pdf", "application/pdf"), ("png", "image/png"), ("jpg", "image/jpeg"),
     ("jpeg", "image/jpeg"), ("gif", "image/gif"), ("bmp", "image/bmp"),
     ("webp", "image/webp"), ("tiff", "image/tiff"), ("tif", "image/tiff")]).getD
    "application/octet-stream"

/-- The base64 alphabet. -/
def b64Table : List Char :=
  "ABCDEFGHIJKLMNOPQRSTUVWXYZabcdefghijklmnopqrstuvwxyz0123456789+/".data

/-- Character of a six-bit group. -/
def b64Char (n : Nat) : Char := b64Table.getD n 'A'

/-- Position of a character in the base64 alphabet (`none` for characters
outside it, in particular for the padding character). -/
def b64Index (c : Char) : Option Nat := b64Table.findIdx? (fun d => d == c)

/-- Base64 encoding of a byte sequence, three bytes to four characters with
padding on the final group. -/
def encB64Chars : List Nat → List Char
  | [] => []
  | [a] => [b64Char (a / 4), b64Char (a % 4 * 16), '=', '=']
  | [a, b] => [b64Char (a / 4), b64Char (a % 4 * 16 + b / 16), b64Char (b % 16 * 4), '=']
  | a :: b :: c :: rest =>
      b64Char (a / 4) :: b64Char (a % 4 * 16 + b / 16) ::
        b64Char (b % 16 * 4 + c / 64) :: b64Char (c % 64) :: encB64Chars rest

/-- The source's `arrayBufferToBase64` (identical in all three variants):
`String.fromCharCode` turns each byte into the character of that code and
`btoa` base64-encodes the character codes of the resulting binary string,
throwing on a code point above 255 (`none`); the composition is base64 over
the byte values. -/
def arrayBufferToBase64 (bytes : List Nat) : Option String :=
  if bytes.all (fun b => b < 256) then some (String.mk (encB64Chars bytes)) else none

/-- Standard base64 decoding of one four-character group into one, two or
three bytes, honouring `=` padding. -/
def decB64Group (c0 c1 c2 c3 : Char) : Option (List Nat) :=
  match b64Index c0, b64Index c1 with
  | some s0, some s1 =>
      if c2 == '=' then
        if c3 == '=' then some [s0 * 4 + s1 / 16] else none
      else
        match b64Index c2 with
        | some s2 =>
            if c3 == '=' then some [s0 * 4 + s1 / 16, s1 % 16 * 16 + s2 / 4]
            else
              match b64Index c3 with
              | some s3 => some [s0 * 4 + s1 / 16, s1 % 16 * 16 + s2 / 4, s2 % 4 * 64 + s3]
              | none => none
        | none => none
  | _, _ => none

/-- Standard base64 decoding: groups of four characters, padding permitted
only in the final group. -/
def decB64Chars : List Char → Option (List Nat)
  | [] => some []
  | c0 :: c1 :: c2 :: c3 :: rest =>
      if (c2 == '=' || c3 == '=') && !rest.isEmpty then none
      else
        match decB64Group c0 c1 c2 c3, decB64Chars rest with
        | some g, some gs => some (g ++ gs)
        | _, _ => none
  | _ => none

/-- Standard base64 decoding of a string. -/
def decodeBase64 (s : String) : Option (List Nat) := decB64Chars s.data

/-! ### The local JSON variant's convert (glmocrConverter.ts lines 31-177) -/

/-- Fixed instruction text of the local JSON variant. -/
def localJsonPrompt : String :=
  "Extract all text from this image or document. Preserve the structure and format as much as possible."

/-- Chat-style JSON payload of a local variant (glmocrConverter.ts lines
64-84; part_001 uses the same shape with its own prompt text). -/
def chatPayload (prompt mimeType b64 : String) : Json :=
  .obj
    [("model", .str "mlx-community/GLM-OCR-bf16"),
     ("messages", .arr
        [.obj
           [("role", .str "user"),
            ("content", .arr
               [.obj [("type", .str "text"), ("text", .str prompt)],
                .obj [("type", .str "image_url"),
                      ("image_url", .obj
                         [("url", .str ("data:" ++ mimeType ++ ";base64," ++ b64))])]])]]),
     ("max_tokens", .num 4096)]

/-- The single request the local JSON variant issues.  `bytes` of a
`Uint8Array` are below 256, so the `btoa` guard in `arrayBufferToBase64`
never fires there; `getD` keeps the model total. -/
def localJsonRequest (settings : MarkerSettings) (doc : SourceDocument) : Request :=
  { method := "POST"
    url := "http://" ++ settingValue settings.glmocrEndpoint "localhost:8080" ++ "/chat/completions"
    contentType := some "application/json"
    authorization := none
    body := .jsonPayload
      (chatPayload localJsonPrompt (getMimeType doc.name)
        ((arrayBufferToBase64 doc.bytes).getD "")) }

/-- The local JSON variant's convert, from request construction onward. -/
def localConvert (settings : MarkerSettings) (doc : SourceDocument)
    (folderPath : String) (transport : TransportResult) : OcrOutcome × List Effect :=
  runRequest localClassify settings doc folderPath (localJsonRequest settings doc) transport

/-! ### The cloud variant's convert (part_000 lines 29-170) -/

/-- Message of the missing-API-key notice (part_000 lines 49-52). -/
def apiKeyMissingMsg : String :=
  "GLM-OCR API key not configured. Please set it in plugin settings."

/-- The single request the cloud variant issues (part_000 lines 61-73). -/
def cloudRequest (apiKey : String) (doc : SourceDocument) : Request :=
  { method := "POST"
    url := "https://open.bigmodel.cn/api/paas/v4/layout_parsing"
    contentType := some "application/json"
    authorization := some apiKey
    body := .jsonPayload
      (.obj
        [("model", .str "glm-ocr"),
         ("file", .str ("data:" ++ getMimeType doc.name ++ ";base64," ++
            ((arrayBufferToBase64 doc.bytes).getD "")))]) }

/-- The cloud variant's convert: a falsy API key fails before any request
or vault interaction; otherwise one request is issued and classified. -/
def cloudConvert (settings : MarkerSettings) (doc : SourceDocument)
    (folderPath : String) (transport : TransportResult) : OcrOutcome × List Effect :=
  match settings.glmocrApiKey with
  | none => (.failure .configError apiKeyMissingMsg, [])
  | some key =>
      if key == "" then (.failure .configError apiKeyMissingMsg, [])
      else runRequest cloudClassify settings doc folderPath (cloudRequest key doc) transport

/-! ### The multipart variant's convert (part_001 lines 31-239) -/

/-- Fixed prompt text of the multipart (PDF) path of part_001. -/
def pdfPromptText : String :=
  "Extract all text from this document. Preserve the structure, tables, and formatting as much as possible."

/-- Fixed prompt text of the image (JSON) path of part_001. -/
def imagePrompt : String :=
  "Extract all text from this image. Preserve the structure and format as much as possible."

/-- UTF-8 encoding of one character (`TextEncoder.encode`). -/
def utf8EncodeChar (c : Char) : List Nat :=
  let n := c.toNat
  if n < 128 then [n]
  else if n < 2048 then [192 + n / 64, 128 + n % 64]
  else if n < 65536 then [224 + n / 4096, 128 + n / 64 % 64, 128 + n % 64]
  else [240 + n / 262144, 128 + n / 4096 % 64, 128 + n / 64 % 64, 128 + n % 64]

/-- UTF-8 encoding of a string (`new TextEncoder().encode(part)`). -/
def utf8Bytes (s : String) : List Nat := s.data.flatMap utf8EncodeChar

/-- Header block of the file part (part_001 lines 60-64): the first string
pushed into `parts`. -/
def fileHeaderStr (boundary filename : String) : String :=
  "--" ++ boundary ++ "\r\n" ++
    "Content-Disposition: form-data; name=\"file\"; filename=\"" ++ filename ++ "\"\r\n" ++
    "Content-Type: application/pdf\r\n\r\n"

/-- Header block of the prompt part (part_001 lines 69-73 up to the blank
line). -/
def promptHeaderStr (boundary : String) : String :=
  "--" ++ boundary ++ "\r\n" ++ "Content-Disposition: form-data; name=\"prompt\"\r\n\r\n"

/-- The prompt part as pushed by the source: header block, payload text and
trailing CRLF in one string. -/
def promptPartStr (boundary : String) : String :=
  promptHeaderStr boundary ++ pdfPromptText ++ "\r\n"

/-- The closing boundary marker (part_001 line 75). -/
def closingStr (boundary : String) : String := "--" ++ boundary ++ "--\r\n"

/-- The multipart body assembled by part_001 lines 54-99: strings are
UTF-8-encoded and all pieces are concatenated into one byte buffer. -/
def buildMultipartBody (boundary filename : String) (fileData : List Nat) : List Nat :=
  utf8Bytes (fileHeaderStr boundary filename) ++ fileData ++ utf8Bytes "\r\n" ++
    utf8Bytes (promptPartStr boundary) ++ utf8Bytes (closingStr boundary)

/-- The boundary token of part_001 line 56; the base36 fraction digits of
`Math.random()` are a parameter of the model. -/
def mkBoundary (randomSuffix : String) : String :=
  "----WebKitFormBoundary" ++ randomSuffix

/-- The single request part_001 issues for a given document: multipart to
`/v1/chat/completions` for PDFs, JSON chat payload to `/chat/completions`
otherwise. -/
def part001Request (settings : MarkerSettings) (doc : SourceDocument)
    (randomSuffix : String) : Request :=
  let endpoint := settingValue settings.glmocrEndpoint "localhost:8080"
  if extOf doc.name == "pdf" then
    let boundary := mkBoundary randomSuffix
    { method := "POST"
      url := "http://" ++ endpoint ++ "/v1/chat/completions"
      contentType := some ("multipart/form-data; boundary=" ++ boundary)
      authorization := none
      body := .bytes (buildMultipartBody boundary doc.name doc.bytes) }
  else
    { method := "POST"
      url := "http://" ++ endpoint ++ "/chat/completions"
      contentType := some "application/json"
      authorization := none
      body := .jsonPayload
        (chatPayload imagePrompt (getMimeType doc.name)
          ((arrayBufferToBase64 doc.bytes).getD "")) }

/-- The multipart variant's convert; its response handling is the same
code as the local JSON variant's. -/
def part001Convert (settings : MarkerSettings) (doc : SourceDocument)
    (folderPath : String) (randomSuffix : String) (transport : TransportResult) :
    OcrOutcome × List Effect :=
  runRequest localClassify settings doc folderPath (part001Request settings doc randomSuffix)
    transport

/-! ### testConnection -/

/-- What the transport would answer on the two probe paths: the health
(`/models`) path and the root path.  The adapter may issue requests against
either; a component is an `Except.error` when that request would reject
(e.g. connection refused). -/
structure ConnEnv where
  primary : TransportResult
  rootPath : TransportResult

/-- Whether a probe result is a resolved response with status 200. -/
def yields200 : TransportResult → Bool
  | .ok r => r.status == 200
  | .error _ => false

/-- Whether a probe result is a resolved response with a status other
than 200. -/
def yieldsNon200 : TransportResult → Bool
  | .ok r => !(r.status == 200)
  | .error _ => false

/-- The local variants' testConnection (glmocrConverter.ts lines 179-216,
part_001 lines 241-285): GET the `/models` path; on a non-200 response, GET
the root path once; a rejection of either request yields `false` through
the catch blocks.  Returns the boolean result and the requests issued. -/
def localTestConnection (settings : MarkerSettings) (env : ConnEnv) :
    Bool × List Request :=
  let endpoint := settingValue settings.glmocrEndpoint "localhost:8080"
  let req1 : Request :=
    ⟨"GET", "http://" ++ endpoint ++ "/models", none, none, .empty⟩
  let req2 : Request :=
    ⟨"GET", "http://" ++ endpoint ++ "/", none, none, .empty⟩
  match env.primary with
  | .error _ => (false, [req1])
  | .ok r =>
      if r.status == 200 then (true, [req1])
      else
        match env.rootPath with
        | .error _ => (false, [req1, req2])
        | .ok alt => (alt.status == 200, [req1, req2])

/-- The cloud variant's testConnection (part_000 lines 172-209): a falsy
API key fails before any request; otherwise a single authorized GET against
the cloud models path decides the result — the root path is never probed. -/
def cloudTestConnection (settings : MarkerSettings) (env : ConnEnv) :
    Bool × List Request :=
  match settings.glmocrApiKey with
  | none => (false, [])
  | some key =>
      if key == "" then (false, [])
      else
        let req : Request :=
          ⟨"GET", "https://open.bigmodel.cn/api/paas/v4/models", none, some key, .empty⟩
        match env.primary with
        | .error _ => (false, [req])
        | .ok r => (r.status == 200, [req])

/-! ### Multipart part structure (the claim-level view of the body) -/

/-- A form part as the multipart claim speaks of it: the declared field
name, the part's header block (which starts with the boundary delimiter
and declares the name), and the payload bytes. -/
structure FormPart where
  name : String
  header : String
  payload : List Nat

/-- Byte encoding of one part: header block, payload, CRLF delimiter. -/
def FormPart.encode (p : FormPart) : List Nat :=
  utf8Bytes p.header ++ p.payload ++ utf8Bytes "\r\n"

/-- Byte encoding of a whole multipart body: the encoded parts followed by
the closing boundary marker. -/
def encodeMultipart (boundary : String) (ps : List FormPart) : List Nat :=
  (ps.map FormPart.encode).flatten ++ utf8Bytes (closingStr boundary)

/-- The part list the source's multipart body realises: one `file` part
whose payload is the raw file bytes, one `prompt` part whose payload is
the fixed prompt text. -/
def multipartFormParts (boundary filename : String) (fileData : List Nat) : List FormPart :=
  [⟨"file", fileHeaderStr boundary filename, fileData⟩,
   ⟨"prompt", promptHeaderStr boundary, utf8Bytes pdfPromptText⟩]

/-- A part's header begins with the boundary token and declares the part's
field name in its Content-Disposition line. -/
def FormPart.declaresName (boundary : String) (p : FormPart) : Prop :=
  ∃ rest, p.header
    = "--" ++ boundary ++ "\r\n" ++ "Content-Disposition: form-data; name=\"" ++
        p.name ++ "\"" ++ rest

/-! ### Helper lemmas -/

theorem utf8Bytes_append (s t : String) : utf8Bytes (s ++ t) = utf8Bytes s ++ utf8Bytes t := by
  simp [utf8Bytes, String.data_append]

theorem requestsOf_append (a b : List Effect) :
    requestsOf (a ++ b) = requestsOf a ++ requestsOf b := by
  induction a with
  | nil => rfl
  | cons e rest ih => cases e <;> simp [requestsOf, ih]

theorem requestsOf_successEffects (settings : MarkerSettings) (doc : SourceDocument)
    (folderPath : String) (markdown : Json) (label : String) :
    requestsOf (successEffects settings doc folderPath markdown label) = [] := by
  unfold successEffects
  split <;> split <;> simp [requestsOf_append, requestsOf]

theorem b64Index_b64Char : ∀ n, n < 64 → b64Index (b64Char n) = some n := by decide

theorem b64Char_ne_pad : ∀ n, n < 64 → (b64Char n == '=') = false := by decide

theorem decB64_encB64 : ∀ bs : List Nat, (∀ b ∈ bs, b < 256) →
    decB64Chars (encB64Chars bs) = some bs := by
  intro bs
  induction bs using encB64Chars.induct with
  | case1 => intro _; rfl
  | case2 a =>
      intro h
      have ha : a < 256 := h a (by simp)
      have h0 := b64Index_b64Char (a / 4) (by omega)
      have h1 := b64Index_b64Char (a % 4 * 16) (by omega)
      simp [encB64Chars, decB64Chars, decB64Group, h0, h1]
      omega
  | case3 a b =>
      intro h
      have ha : a < 256 := h a (by simp)
      have hb : b < 256 := h b (by simp)
      have h0 := b64Index_b64Char (a / 4) (by omega)
      have h1 := b64Index_b64Char (a % 4 * 16 + b / 16) (by omega)
      have h2 := b64Index_b64Char (b % 16 * 4) (by omega)
      have hp2 := b64Char_ne_pad (b % 16 * 4) (by omega)
      simp [encB64Chars, decB64Chars, decB64Group, h0, h1, h2, hp2]
      constructor <;> omega
  | case4 a b c rest ih =>
      intro h
      have ha : a < 256 := h a (by simp)
      have hb : b < 256 := h b (by simp)
      have hc : c < 256 := h c (by simp)
      have hrest : ∀ x ∈ rest, x < 256 := fun x hx => h x (by simp [hx])
      have h0 := b64Index_b64Char (a / 4) (by omega)
      have h1 := b64Index_b64Char (a % 4 * 16 + b / 16) (by omega)
      have h2 := b64Index_b64Char (b % 16 * 4 + c / 64) (by omega)
      have h3 := b64Index_b64Char (c % 64) (by omega)
      have hp2 := b64Char_ne_pad (b % 16 * 4 + c / 64) (by omega)
      have hp3 := b64Char_ne_pad (c % 64) (by omega)
      simp [encB64Chars, decB64Chars, decB64Group, h0, h1, h2, h3, hp2, hp3, ih hrest]
      refine ⟨by omega, by omega, by omega⟩

/-! ### The claims -/

/-- Claim C10: for every byte buffer, decoding the output of
`arrayBufferToBase64` with standard base64 decoding yields exactly the
original byte sequence, so the data URI embedded in the JSON request
carries the document bytes losslessly. -/
theorem base64_roundTrip (bytes : List Nat) (h : ∀ b ∈ bytes, b < 256) :
    ∃ s, arrayBufferToBase64 bytes = some s ∧ decodeBase64 s = some bytes := by
  refine ⟨String.mk (encB64Chars bytes), ?_, ?_⟩
  · simp only [arrayBufferToBase64]
    have : bytes.all (fun b => b < 256) = true := by
      simp only [List.all_eq_true, decide_eq_true_eq]; exact h
    simp [this]
  · simpa [decodeBase64] using decB64_encB64 bytes h

theorem base64_roundTrip_witness :
    (∀ b ∈ [72, 105, 33], b < 256) ∧
      ∃ s, arrayBufferToBase64 [72, 105, 33] = some s ∧
        decodeBase64 s = some [72, 105, 33] :=
  ⟨by decide, base64_roundTrip [72, 105, 33] (by decide)⟩

/-- Claim C1: for every document and every 200-status response whose body
parses as a well-formed success envelope with a non-empty extracted text
field, convert returns a Success outcome whose markdown equals the
envelope's extracted field verbatim — for the local JSON variant (the
`choices[0].message.content` chain) and for the cloud variant (`code` 0
and `data.md_result`). -/
theorem convert_success_verbatim (settings : MarkerSettings) (doc : SourceDocument)
    (folderPath text : String) (j jc : Json) (s : String) (hne : s ≠ "") :
    (localContentOf j = some (.str s) →
      (localConvert settings doc folderPath (.ok ⟨200, text, some j⟩)).1
        = .success (.str s) "GLM-OCR (mlx-vlm)") ∧
    (truthyOptStr settings.glmocrApiKey = true →
      Json.fieldOpt jc "code" = some (.num 0) →
      (Json.fieldOpt jc "data").bind (fun d => Json.fieldOpt d "md_result") = some (.str s) →
      (cloudConvert settings doc folderPath (.ok ⟨200, text, some jc⟩)).1
        = .success (.str s) "GLM-OCR (cloud)") := by
  constructor
  · intro hs
    have hcl : localClassify ⟨200, text, some j⟩ = .success (.str s) "GLM-OCR (mlx-vlm)" := by
      cases j with
      | null => simp [localContentOf, Json.fieldOpt] at hs
      | bool b => simp [localClassify, local200, hs, jsTruthy, hne]
      | num n => simp [localClassify, local200, hs, jsTruthy, hne]
      | str t => simp [localClassify, local200, hs, jsTruthy, hne]
      | arr xs => simp [localClassify, local200, hs, jsTruthy, hne]
      | obj fs => simp [localClassify, local200, hs, jsTruthy, hne]
    simp [localConvert, runRequest, hcl]
  · intro hkey hcode hmd
    obtain ⟨key, hk⟩ : ∃ key, settings.glmocrApiKey = some key := by
      cases hkapi : settings.glmocrApiKey with
      | none => rw [hkapi] at hkey; simp [truthyOptStr] at hkey
      | some k => exact ⟨k, rfl⟩
    have hkne : (key == "") = false := by
      rw [hk] at hkey; simpa [truthyOptStr] using hkey
    have hcc : cloudClassify ⟨200, text, some jc⟩ = .success (.str s) "GLM-OCR (cloud)" := by
      cases jc with
      | null => simp [Json.fieldOpt] at hcode
      | bool b => simp [Json.fieldOpt] at hcode
      | num n => simp [Json.fieldOpt] at hcode
      | str t => simp [Json.fieldOpt] at hcode
      | arr xs => simp [Json.fieldOpt] at hcode
      | obj fs =>
          simp [cloudClassify, cloud200, isCodeZero, hcode, hmd, jsTruthy, hne]
    simp [cloudConvert, hk, hkne, runRequest, hcc]

theorem convert_success_verbatim_witness :
    ("Hello World" : String) ≠ "" ∧
      (localConvert ⟨some "localhost:8080", none, false, false⟩ ⟨"scan.png", [1, 2]⟩ "out/"
          (.ok ⟨200, "body", some (.obj
            [("choices", .arr [.obj [("message", .obj [("content", .str "Hello World")])]])])⟩)).1
        = .success (.str "Hello World") "GLM-OCR (mlx-vlm)" := by
  refine ⟨by decide, ?_⟩
  exact (convert_success_verbatim ⟨some "localhost:8080", none, false, false⟩ ⟨"scan.png", [1, 2]⟩
      "out/" "body"
      (.obj [("choices", .arr [.obj [("message", .obj [("content", .str "Hello World")])]])])
      (.obj []) "Hello World" (by decide)).1 rfl

/-- Claim C2 (divergence exhibit): at a 200-status response whose success
envelope carries an empty extracted text field, the local variants return
a Success outcome carrying the substituted literal text `No text
extracted` instead of the EmptyResult failure the claim states; only the
cloud variant returns the EmptyResult failure. -/
theorem emptyText_divergence :
    (localConvert ⟨some "localhost:8080", none, false, false⟩ ⟨"scan.png", [1, 2]⟩ "out/"
        (.ok ⟨200, "body", some (.obj
          [("choices", .arr [.obj [("message", .obj [("content", .str "")])]])])⟩)).1
      = .success (.str "No text extracted") "GLM-OCR (mlx-vlm)" ∧
    (part001Convert ⟨some "localhost:8080", none, false, false⟩ ⟨"scan.png", [1, 2]⟩ "out/" "r4nd"
        (.ok ⟨200, "body", some (.obj
          [("choices", .arr [.obj [("message", .obj [("content", .str "")])]])])⟩)).1
      = .success (.str "No text extracted") "GLM-OCR (mlx-vlm)" ∧
    (cloudConvert ⟨none, some "key", false, false⟩ ⟨"scan.png", [1, 2]⟩ "out/"
        (.ok ⟨200, "body", some (.obj
          [("code", .num 0), ("msg", .str "success"),
           ("data", .obj [("md_result", .str "")])])⟩)).1
      = .failure .emptyResult "No text extracted" :=
  ⟨rfl, rfl, rfl⟩

/-- Claim C3: for every document, a response whose status is not 2xx makes
convert return an HttpError failure (no exception escapes: the
classification is total and lands in a failure); when the body does not
parse as JSON the message is the truncated raw-text fallback, whose format
`HTTP status - body-prefix` contains the status code. -/
theorem convert_non2xx_httpError (settings : MarkerSettings) (doc : SourceDocument)
    (folderPath : String) (status : Nat) (text : String) (p : Option Json)
    (h : ¬(200 ≤ status ∧ status < 300)) :
    (∃ m, (localConvert settings doc folderPath (.ok ⟨status, text, p⟩)).1
      = .failure .httpError m) ∧
    (truthyOptStr settings.glmocrApiKey = true →
      ∃ m, (cloudConvert settings doc folderPath (.ok ⟨status, text, p⟩)).1
        = .failure .httpError m) ∧
    (p = none →
      (localConvert settings doc folderPath (.ok ⟨status, text, p⟩)).1
        = .failure .httpError (httpFallbackMsg status text) ∧
      httpFallbackMsg status text
        = "HTTP " ++ toString status ++
            (" - " ++ (if text == "" then "No response details" else jsSubstring text 100))) := by
  have hs : (status == 200) = false := by
    have : status ≠ 200 := by omega
    simpa using this
  have hlocal : ∀ m0, localNon200 status text p = .failure .httpError m0 →
      (localConvert settings doc folderPath (.ok ⟨status, text, p⟩)).1
        = .failure .httpError m0 := by
    intro m0 hm
    simp [localConvert, runRequest, localClassify, hs, hm]
  refine ⟨?_, ?_, ?_⟩
  · match p with
    | none => exact ⟨_, hlocal _ rfl⟩
    | some .null => exact ⟨_, hlocal _ rfl⟩
    | some (.bool b) => exact ⟨_, hlocal _ rfl⟩
    | some (.num n) => exact ⟨_, hlocal _ rfl⟩
    | some (.str t) => exact ⟨_, hlocal _ rfl⟩
    | some (.arr xs) => exact ⟨_, hlocal _ rfl⟩
    | some (.obj fs) => exact ⟨_, hlocal _ rfl⟩
  · intro hkey
    obtain ⟨key, hk⟩ : ∃ key, settings.glmocrApiKey = some key := by
      cases hkapi : settings.glmocrApiKey with
      | none => rw [hkapi] at hkey; simp [truthyOptStr] at hkey
      | some k => exact ⟨k, rfl⟩
    have hkne : (key == "") = false := by
      rw [hk] at hkey; simpa [truthyOptStr] using hkey
    have hcloud : ∀ m0, cloudNon200 status text p = .failure .httpError m0 →
        (cloudConvert settings doc folderPath (.ok ⟨status, text, p⟩)).1
          = .failure .httpError m0 := by
      intro m0 hm
      simp [cloudConvert, hk, hkne, runRequest, cloudClassify, hs, hm]
    match p with
    | none => exact ⟨_, hcloud _ rfl⟩
    | some .null => exact ⟨_, hcloud _ rfl⟩
    | some (.bool b) => exact ⟨_, hcloud _ rfl⟩
    | some (.num n) => exact ⟨_, hcloud _ rfl⟩
    | some (.str t) => exact ⟨_, hcloud _ rfl⟩
    | some (.arr xs) => exact ⟨_, hcloud _ rfl⟩
    | some (.obj fs) => exact ⟨_, hcloud _ rfl⟩
  · rintro rfl
    exact ⟨hlocal _ rfl, by simp [httpFallbackMsg, String.append_assoc]⟩

theorem convert_non2xx_httpError_witness :
    ¬(200 ≤ 500 ∧ 500 < 300) ∧
      ((localConvert ⟨some "localhost:8080", none, false, false⟩ ⟨"scan.png", [1, 2]⟩ "out/"
          (.ok ⟨500, "Internal Server Error", none⟩)).1
        = .failure .httpError (httpFallbackMsg 500 "Internal Server Error") ∧
      httpFallbackMsg 500 "Internal Server Error"
        = "HTTP " ++ toString 500 ++
            (" - " ++ (if ("Internal Server Error" : String) == "" then "No response details"
              else jsSubstring "Internal Server Error" 100))) :=
  ⟨by decide,
    (convert_non2xx_httpError ⟨some "localhost:8080", none, false, false⟩ ⟨"scan.png", [1, 2]⟩
      "out/" 500 "Internal Server Error" none (by decide)).2.2 rfl⟩

/-- Claim C4: for the cloud backend, a 200-status body that parses with a
non-zero success-indicator `code` makes convert return a BackendError
failure whose message is the envelope's `msg` field. -/
theorem cloud_nonzero_code_backendError (settings : MarkerSettings) (doc : SourceDocument)
    (folderPath text : String) (j : Json) (c : Int) (m : String)
    (hkey : truthyOptStr settings.glmocrApiKey = true)
    (hcode : Json.fieldOpt j "code" = some (.num c)) (hc : c ≠ 0)
    (hmsg : Json.fieldOpt j "msg" = some (.str m)) :
    (cloudConvert settings doc folderPath (.ok ⟨200, text, some j⟩)).1
      = .failure .backendError m := by
  obtain ⟨key, hk⟩ : ∃ key, settings.glmocrApiKey = some key := by
    cases hkapi : settings.glmocrApiKey with
    | none => rw [hkapi] at hkey; simp [truthyOptStr] at hkey
    | some k => exact ⟨k, rfl⟩
  have hkne : (key == "") = false := by
    rw [hk] at hkey; simpa [truthyOptStr] using hkey
  have hcc : cloudClassify ⟨200, text, some j⟩ = .failure .backendError m := by
    cases j with
    | null => simp [Json.fieldOpt] at hcode
    | bool b => simp [Json.fieldOpt] at hcode
    | num n => simp [Json.fieldOpt] at hcode
    | str t => simp [Json.fieldOpt] at hcode
    | arr xs => simp [Json.fieldOpt] at hcode
    | obj fs =>
        simp [cloudClassify, cloud200, isCodeZero, hcode, hmsg, hc, displayOpt, jsDisplay]
  simp [cloudConvert, hk, hkne, runRequest, hcc]

theorem cloud_nonzero_code_backendError_witness :
    truthyOptStr (some "key") = true ∧ (1 : Int) ≠ 0 ∧
      (cloudConvert ⟨none, some "key", false, false⟩ ⟨"scan.png", [1, 2]⟩ "out/"
          (.ok ⟨200, "body", some (.obj [("code", .num 1), ("msg", .str "quota exceeded")])⟩)).1
        = .failure .backendError "quota exceeded" :=
  ⟨by decide, by decide,
    cloud_nonzero_code_backendError ⟨none, some "key", false, false⟩ ⟨"scan.png", [1, 2]⟩
      "out/" "body" (.obj [("code", .num 1), ("msg", .str "quota exceeded")]) 1 "quota exceeded"
      (by decide) rfl (by decide) rfl⟩

/-- Claim C5: for every document, a 200-status response whose body is not
valid JSON makes convert return a MalformedResponse failure — in all three
variants — and no exception escapes (the classification is total). -/
theorem convert_200_malformed (settings : MarkerSettings) (doc : SourceDocument)
    (folderPath text randomSuffix : String) :
    (localConvert settings doc folderPath (.ok ⟨200, text, none⟩)).1
      = .failure .malformedResponse parseErrMsg ∧
    (part001Convert settings doc folderPath randomSuffix (.ok ⟨200, text, none⟩)).1
      = .failure .malformedResponse parseErrMsg ∧
    (truthyOptStr settings.glmocrApiKey = true →
      (cloudConvert settings doc folderPath (.ok ⟨200, text, none⟩)).1
        = .failure .malformedResponse parseErrMsg) := by
  refine ⟨by simp [localConvert, runRequest, localClassify, local200],
    by simp [part001Convert, runRequest, localClassify, local200], ?_⟩
  intro hkey
  obtain ⟨key, hk⟩ : ∃ key, settings.glmocrApiKey = some key := by
    cases hkapi : settings.glmocrApiKey with
    | none => rw [hkapi] at hkey; simp [truthyOptStr] at hkey
    | some k => exact ⟨k, rfl⟩
  have hkne : (key == "") = false := by
    rw [hk] at hkey; simpa [truthyOptStr] using hkey
  simp [cloudConvert, hk, hkne, runRequest, cloudClassify, cloud200]

theorem convert_200_malformed_witness :
    truthyOptStr (some "key") = true ∧
      (cloudConvert ⟨none, some "key", false, false⟩ ⟨"scan.png", [1, 2]⟩ "out/"
          (.ok ⟨200, "not json", none⟩)).1
        = .failure .malformedResponse parseErrMsg :=
  ⟨by decide,
    (convert_200_malformed ⟨none, some "key", false, false⟩ ⟨"scan.png", [1, 2]⟩ "out/"
      "not json" "r4nd").2.2 (by decide)⟩

/-- Claim C6 (refuted as stated): the cloud variant's testConnection never
probes the fallback root path, so with a non-200 primary response and a
root path that would answer 200 it returns false although the claimed
iff-condition holds. -/
theorem testConnection_iff_counterexample :
    ¬(((cloudTestConnection ⟨none, some "key", false, false⟩
          ⟨.ok ⟨500, "err", none⟩, .ok ⟨200, "ok", none⟩⟩).1 = true) ↔
        (yields200 (.ok ⟨500, "err", none⟩) = true ∨
          yields200 (.ok ⟨200, "ok", none⟩) = true)) := by
  intro hiff
  have : (cloudTestConnection ⟨none, some "key", false, false⟩
      ⟨.ok ⟨500, "err", none⟩, .ok ⟨200, "ok", none⟩⟩).1 = true :=
    hiff.mpr (Or.inr rfl)
  simp [cloudTestConnection, yields200] at this

/-- Claim C6 (amended): the local variants' testConnection returns true
iff the primary `/models` request resolves with status 200, or it resolves
with a non-200 status and the fallback root request resolves with status
200 (a rejected primary request is caught and yields false without probing
the root path); the cloud variant's testConnection issues no fallback
request and returns true iff the API key is present and the primary
request resolves with status 200.  Both are total: any transport rejection
becomes false. -/
theorem testConnection_amended (settings : MarkerSettings) (env : ConnEnv) :
    ((localTestConnection settings env).1 = true ↔
      (yields200 env.primary = true ∨
        (yieldsNon200 env.primary = true ∧ yields200 env.rootPath = true))) ∧
    ((cloudTestConnection settings env).1 = true ↔
      (truthyOptStr settings.glmocrApiKey = true ∧ yields200 env.primary = true)) := by
  obtain ⟨p, root⟩ := env
  constructor
  · cases p with
    | error e => simp [localTestConnection, yields200, yieldsNon200]
    | ok r =>
        cases root with
        | error e2 =>
            by_cases h : (r.status == 200) = true <;>
              simp [localTestConnection, yields200, yieldsNon200, h]
        | ok r2 =>
            by_cases h : (r.status == 200) = true <;>
              simp [localTestConnection, yields200, yieldsNon200, h]
  · cases hk : settings.glmocrApiKey with
    | none => simp [cloudTestConnection, hk, truthyOptStr]
    | some key =>
        by_cases hke : (key == "") = true
        · simp [cloudTestConnection, hk, hke, truthyOptStr]
        · cases p with
          | error e => simp [cloudTestConnection, hk, hke, truthyOptStr, yields200]
          | ok r => simp [cloudTestConnection, hk, hke, truthyOptStr, yields200]

/-- Claim C8: when the cloud API key is missing (or empty), both convert
and testConnection fail — a ConfigError outcome resp. false — with an
empty effect trace: no HTTP request is issued and no vault effect occurs. -/
theorem cloud_missing_key_no_effects (settings : MarkerSettings) (doc : SourceDocument)
    (folderPath : String) (transport : TransportResult) (env : ConnEnv)
    (h : truthyOptStr settings.glmocrApiKey = false) :
    cloudConvert settings doc folderPath transport
      = (.failure .configError apiKeyMissingMsg, []) ∧
    cloudTestConnection settings env = (false, []) := by
  cases hk : settings.glmocrApiKey with
  | none => exact ⟨by simp [cloudConvert, hk], by simp [cloudTestConnection, hk]⟩
  | some key =>
      have hke : (key == "") = true := by
        rw [hk] at h; simpa [truthyOptStr] using h
      exact ⟨by simp [cloudConvert, hk, hke], by simp [cloudTestConnection, hk, hke]⟩

theorem cloud_missing_key_no_effects_witness :
    truthyOptStr (none : Option String) = false ∧
      (cloudConvert ⟨none, none, false, false⟩ ⟨"scan.png", [1, 2]⟩ "out/"
          (.ok ⟨200, "body", none⟩)
        = (.failure .configError apiKeyMissingMsg, []) ∧
      cloudTestConnection ⟨none, none, false, false⟩ ⟨.ok ⟨200, "", none⟩, .ok ⟨200, "", none⟩⟩
        = (false, [])) :=
  ⟨by decide,
    cloud_missing_key_no_effects ⟨none, none, false, false⟩ ⟨"scan.png", [1, 2]⟩ "out/"
      (.ok ⟨200, "body", none⟩) ⟨.ok ⟨200, "", none⟩, .ok ⟨200, "", none⟩⟩ rfl⟩

/-- Claim C9: one call to convert issues exactly one HTTP POST to the
profile's base URL plus its fixed sub-path, for every transport behaviour
— in particular no retry follows any failure; the cloud variant issues its
single POST whenever the key is configured and never issues more than one
request. -/
theorem convert_single_post (settings : MarkerSettings) (doc : SourceDocument)
    (folderPath randomSuffix : String) (transport : TransportResult) :
    requestsOf (localConvert settings doc folderPath transport).2
      = [localJsonRequest settings doc] ∧
    (localJsonRequest settings doc).method = "POST" ∧
    (localJsonRequest settings doc).url
      = "http://" ++ settingValue settings.glmocrEndpoint "localhost:8080" ++
          "/chat/completions" ∧
    requestsOf (part001Convert settings doc folderPath randomSuffix transport).2
      = [part001Request settings doc randomSuffix] ∧
    (part001Request settings doc randomSuffix).method = "POST" ∧
    (part001Request settings doc randomSuffix).url
      = "http://" ++ settingValue settings.glmocrEndpoint "localhost:8080" ++
          (if extOf doc.name == "pdf" then "/v1/chat/completions" else "/chat/completions") ∧
    (truthyOptStr settings.glmocrApiKey = true →
      ∃ key, settings.glmocrApiKey = some key ∧
        requestsOf (cloudConvert settings doc folderPath transport).2
          = [cloudRequest key doc] ∧
        (cloudRequest key doc).method = "POST" ∧
        (cloudRequest key doc).url = "https://open.bigmodel.cn/api/paas/v4/layout_parsing") ∧
    (requestsOf (cloudConvert settings doc folderPath transport).2).length ≤ 1 := by
  have hrun : ∀ (classify : HttpResponse → OcrOutcome) (req : Request),
      requestsOf (runRequest classify settings doc folderPath req transport).2 = [req] := by
    intro classify req
    cases transport with
    | error e => simp [runRequest, requestsOf]
    | ok r =>
        cases hcl : classify r with
        | success md label =>
            simp [runRequest, hcl, requestsOf, requestsOf_append, successEffects]
            constructor <;> (split <;> simp [requestsOf])
        | failure k m => simp [runRequest, hcl, requestsOf]
  refine ⟨hrun _ _, rfl, rfl, hrun _ _, ?_, ?_, ?_, ?_⟩
  · unfold part001Request
    split <;> rfl
  · unfold part001Request
    split <;> simp_all
  · intro hkey
    obtain ⟨key, hk⟩ : ∃ key, settings.glmocrApiKey = some key := by
      cases hkapi : settings.glmocrApiKey with
      | none => rw [hkapi] at hkey; simp [truthyOptStr] at hkey
      | some k => exact ⟨k, rfl⟩
    have hkne : (key == "") = false := by
      rw [hk] at hkey; simpa [truthyOptStr] using hkey
    exact ⟨key, hk, by simp [cloudConvert, hk, hkne, hrun], rfl, rfl⟩
  · cases hk : settings.glmocrApiKey with
    | none => simp [cloudConvert, hk, requestsOf]
    | some key =>
        by_cases hke : (key == "") = true
        · simp [cloudConvert, hk, hke, requestsOf]
        · simp [cloudConvert, hk, hke, hrun]

theorem convert_single_post_witness :
    truthyOptStr (some "key") = true ∧
      ∃ key, (some "key" : Option String) = some key ∧
        requestsOf (cloudConvert ⟨none, some "key", false, false⟩ ⟨"scan.png", [1, 2]⟩ "out/"
            (.error "refused")).2
          = [cloudRequest key ⟨"scan.png", [1, 2]⟩] ∧
        (cloudRequest key ⟨"scan.png", [1, 2]⟩).method = "POST" ∧
        (cloudRequest key ⟨"scan.png", [1, 2]⟩).url
          = "https://open.bigmodel.cn/api/paas/v4/layout_parsing" :=
  ⟨by decide,
    (convert_single_post ⟨none, some "key", false, false⟩ ⟨"scan.png", [1, 2]⟩ "out/" "r4nd"
      (.error "refused")).2.2.2.2.2.2.1 (by decide)⟩

/-- Claim C7: for every PDF document, the constructed multipart body is
the encoding of exactly one `file` part whose payload is exactly the
original file bytes and one `prompt` part carrying the fixed prompt text;
every part's header begins with the same boundary token and declares its
field name, every encoded part starts with the boundary delimiter, and the
body ends with the closing boundary marker.  For PDF documents this body
is what the issued request carries. -/
theorem multipart_body_structure (boundary filename : String) (d : List Nat) :
    buildMultipartBody boundary filename d
      = encodeMultipart boundary (multipartFormParts boundary filename d) ∧
    (∀ p ∈ multipartFormParts boundary filename d, FormPart.declaresName boundary p) ∧
    ((multipartFormParts boundary filename d).filter
        (fun p => p.name == "file")).map FormPart.payload = [d] ∧
    ((multipartFormParts boundary filename d).filter
        (fun p => p.name == "prompt")).map FormPart.payload = [utf8Bytes pdfPromptText] ∧
    (∀ p ∈ multipartFormParts boundary filename d,
      ∃ t, FormPart.encode p = utf8Bytes ("--" ++ boundary) ++ t) ∧
    (∃ t, buildMultipartBody boundary filename d = t ++ utf8Bytes (closingStr boundary)) ∧
    (∀ (settings : MarkerSettings) (doc : SourceDocument) (randomSuffix : String),
      extOf doc.name = "pdf" →
      (part001Request settings doc randomSuffix).body
        = .bytes (buildMultipartBody (mkBoundary randomSuffix) doc.name doc.bytes)) := by
  have hsplitFile : ("Content-Disposition: form-data; name=\"file\"; filename=\"" : String)
      = "Content-Disposition: form-data; name=\"" ++ "file" ++ "\"" ++ "; filename=\"" := rfl
  have hsplitPrompt : ("Content-Disposition: form-data; name=\"prompt\"\r\n\r\n" : String)
      = "Content-Disposition: form-data; name=\"" ++ "prompt" ++ "\"" ++ "\r\n\r\n" := rfl
  refine ⟨?_, ?_, rfl, rfl, ?_, ⟨_, rfl⟩, ?_⟩
  · simp [buildMultipartBody, encodeMultipart, multipartFormParts, FormPart.encode,
      promptPartStr, utf8Bytes_append, List.append_assoc]
  · intro p hp
    simp only [multipartFormParts, List.mem_cons, List.mem_singleton, List.not_mem_nil,
      or_false] at hp
    rcases hp with rfl | rfl
    · refine ⟨"; filename=\"" ++ filename ++ "\"\r\n" ++ "Content-Type: application/pdf\r\n\r\n", ?_⟩
      show fileHeaderStr boundary filename = _
      rw [fileHeaderStr, hsplitFile]
      simp only [String.append_assoc]
    · refine ⟨"\r\n\r\n", ?_⟩
      show promptHeaderStr boundary = _
      rw [promptHeaderStr, hsplitPrompt]
      simp only [String.append_assoc]
  · intro p hp
    simp only [multipartFormParts, List.mem_cons, List.mem_singleton, List.not_mem_nil,
      or_false] at hp
    rcases hp with rfl | rfl
    · refine ⟨utf8Bytes ("\r\n" ++ "Content-Disposition: form-data; name=\"file\"; filename=\"" ++
          filename ++ "\"\r\n" ++ "Content-Type: application/pdf\r\n\r\n") ++ d ++
            utf8Bytes "\r\n", ?_⟩
      simp only [FormPart.encode, fileHeaderStr, utf8Bytes_append, List.append_assoc]
    · refine ⟨utf8Bytes ("\r\n" ++ "Content-Disposition: form-data; name=\"prompt\"\r\n\r\n") ++
          utf8Bytes pdfPromptText ++ utf8Bytes "\r\n", ?_⟩
      simp only [FormPart.encode, promptHeaderStr, utf8Bytes_append, List.append_assoc]
  · intro settings doc randomSuffix h
    simp [part001Request, h]

theorem multipart_body_structure_witness :
    ((⟨"file", fileHeaderStr "----WebKitFormBoundaryr4nd" "a.pdf", [37, 80, 68, 70]⟩ : FormPart)
        ∈ multipartFormParts "----WebKitFormBoundaryr4nd" "a.pdf" [37, 80, 68, 70]) ∧
      FormPart.declaresName "----WebKitFormBoundaryr4nd"
        ⟨"file", fileHeaderStr "----WebKitFormBoundaryr4nd" "a.pdf", [37, 80, 68, 70]⟩ :=
  ⟨by simp [multipartFormParts],
    (multipart_body_structure "----WebKitFormBoundaryr4nd" "a.pdf" [37, 80, 68, 70]).2.1 _
      (by simp [multipartFormParts])⟩

end GLMOCR
